import Mathlib

/-!
# Verification of the Tumblr → Ghost migration pipeline (ghostify2)

Shallow embedding, in Lean 4, of the content-transformation pipeline of the
`ghostify2` repository:

* `src/transform/formatPost.ts` — the `PostTransformer` (title derivation,
  slug generation, HTML/gallery conversion, entity decoding, feature-image
  extraction).  The file contains two draft implementations of the class;
  the second draft (file lines 417–825) is the one embedded at top level
  here, and the first draft's per-type `convertToHtml` dispatch (file lines
  142–164 and its `process*Post` helpers) is embedded in namespace `V1`.
* `src/export/jsonWriter.ts` — the `GhostExporter` (tag/author dedup, join
  rows, validation, file export).  Again two drafts: the second draft
  (file lines 217–536) is embedded in namespace `GhostExporter`, and the
  first draft's `extractUniqueTags` (file lines 82–94) in namespace
  `JsonWriterV1`.

Strings are modeled as Lean `String`s (lists of characters).  JavaScript's
optional string fields are modeled as plain `String`s with `""` standing
for `undefined`, which is faithful for every use in the source because the
source only ever tests those fields for truthiness (and in JS both
`undefined` and `""` are falsy).  The regular expressions used by the
source are embedded as explicit character-list scanners implementing the
JS backtracking semantics of the concrete patterns involved.
-/

/-- JS whitespace (the `\s` character class and `String.prototype.trim`),
restricted to the characters that can actually occur in this pipeline:
space, tab, line feed, vertical tab, form feed, carriage return and
no-break space. -/
def isJsSpace (c : Char) : Bool :=
  c = ' ' || c = '\t' || c = '\n' || c = '\x0b' || c = '\x0c' || c = '\r' || c = ' '

/-- ASCII uppercase test. -/
def isAsciiUpper (c : Char) : Bool := 'A' ≤ c && c ≤ 'Z'

/-- ASCII lowercase test. -/
def isAsciiLower (c : Char) : Bool := 'a' ≤ c && c ≤ 'z'

/-- ASCII digit test. -/
def isAsciiDigit (c : Char) : Bool := '0' ≤ c && c ≤ '9'

/-- JS word character (the `\w` character class): ASCII letters, digits and
underscore. -/
def isWordChar (c : Char) : Bool :=
  isAsciiLower c || isAsciiUpper c || isAsciiDigit c || c = '_'

/-- `String.prototype.toLowerCase`, modeled on the ASCII range (`A`–`Z` map
to `a`–`z`); other characters are left unchanged.  Every concrete input in
this development is ASCII, and the only property used generically is that
the result contains no ASCII uppercase letter, which holds for the real
`toLowerCase` as well. -/
def lowerAsciiChar (c : Char) : Char :=
  if isAsciiUpper c then Char.ofNat (c.toNat + 32) else c

/-- `String.prototype.toUpperCase` for a single character, ASCII range. -/
def upperAsciiChar (c : Char) : Char :=
  if isAsciiLower c then Char.ofNat (c.toNat - 32) else c

/-- Case-insensitive character comparison (the regex `i` flag, ASCII). -/
def charCIEq (a b : Char) : Bool := lowerAsciiChar a = lowerAsciiChar b

/-- Case-insensitive "starts with" on character lists. -/
def startsWithCI : List Char → List Char → Bool
  | [], _ => true
  | _ :: _, [] => false
  | p :: ps, c :: cs => charCIEq p c && startsWithCI ps cs

/-- Case-sensitive "starts with" on character lists
(`String.prototype.startsWith` and the unflagged regexes). -/
def startsWithRaw : List Char → List Char → Bool
  | [], _ => true
  | _ :: _, [] => false
  | p :: ps, c :: cs => p = c && startsWithRaw ps cs

/-- Case-insensitive substring containment on character lists. -/
def containsCI (pat : List Char) : List Char → Bool
  | [] => startsWithCI pat []
  | c :: cs => startsWithCI pat (c :: cs) || containsCI pat cs

/-- `String.prototype.trim` on character lists: drop JS whitespace from both
ends. -/
def jsTrimList (l : List Char) : List Char :=
  ((l.dropWhile isJsSpace).reverse.dropWhile isJsSpace).reverse

/-- `String.prototype.trim`. -/
def jsTrim (s : String) : String := String.mk (jsTrimList s.toList)

/-- `replace(/\s+/g, r)` on character lists: collapse every maximal run of
JS whitespace to the single replacement character `r`.  Implemented as a
one-character-of-state scanner (`inRun` records whether the previous
character was part of a whitespace run). -/
def collapseSpaceRuns (r : Char) : Bool → List Char → List Char
  | _, [] => []
  | inRun, c :: cs =>
    if isJsSpace c then
      if inRun then collapseSpaceRuns r true cs else r :: collapseSpaceRuns r true cs
    else
      c :: collapseSpaceRuns r false cs

/-- The global replace of the regex "one or more hyphens" by a single
hyphen, on character lists: collapse runs of hyphens. -/
def collapseHyphenRuns : Bool → List Char → List Char
  | _, [] => []
  | inRun, c :: cs =>
    if c = '-' then
      if inRun then collapseHyphenRuns true cs else '-' :: collapseHyphenRuns true cs
    else
      c :: collapseHyphenRuns false cs

/-- One photo size entry of the Tumblr API (`url`, `width`, `height`),
from `src/api/tumblr.ts`. -/
structure PhotoSize where
  url : String
  width : Nat
  height : Nat
  deriving DecidableEq, Repr

/-- One entry of the `photos` array of a Tumblr photo post,
from `src/api/tumblr.ts`. -/
structure TumblrPhoto where
  caption : String
  original_size : PhotoSize
  alt_sizes : List PhotoSize
  deriving DecidableEq, Repr

/-- One line of a Tumblr chat post, from `src/api/tumblr.ts`. -/
structure ChatMessage where
  name : String
  label : String
  phrase : String
  deriving DecidableEq, Repr

/-- The `TumblrPost` interface of `src/api/tumblr.ts` (lines 4–47),
restricted to the fields the transformer reads.  Optional string fields
(`title?`, `body?`, `slug`, `quote_text?`, …) are plain `String`s with `""`
standing for `undefined` (both are falsy in JS, and the source only tests
them for truthiness); the optional `photos?` and `chat?` arrays are lists
with `[]` for `undefined` (the source guards them with truthiness or
length checks).  Metadata fields never read by the transformer
(`date`, `format`, `reblog_key`, `bookmarklet`, `mobile`, `source_url`,
`source_title`, `liked`, `state`, `total_posts`, `note_count`) are
omitted.  `timestamp` is in seconds since the epoch. -/
structure TumblrPost where
  id : String
  type : String
  timestamp : Nat
  tags : List String
  slug : String
  title : String
  body : String
  photos : List TumblrPhoto
  video_url : String
  audio_url : String
  link_url : String
  quote_text : String
  quote_source : String
  answer : String
  question : String
  chat : List ChatMessage
  deriving DecidableEq, Repr

/-- The global replace of the regex "`<`, then any characters other than
`>`, then `>`" by the empty string — the body of the standalone `stripHtml`
of `src/transform/formatPost.ts` (lines 487–489).  At a `<` the scanner
looks for the next `>`: if found, the whole tag is dropped and scanning
resumes after it; if there is no `>`, the regex cannot match at this
position (or at any later `<`), so the `<` is kept. -/
def stripHtmlGo : Nat → List Char → List Char
  | 0, l => l
  | _, [] => []
  | fuel + 1, '<' :: cs =>
    let rest := cs.dropWhile (fun c => c != '>')
    if rest.head? = some '>' then stripHtmlGo fuel rest.tail
    else '<' :: stripHtmlGo fuel cs
  | fuel + 1, c :: cs => c :: stripHtmlGo fuel cs

/-- `stripHtml` from `src/transform/formatPost.ts` (lines 487–489):
remove every `<...>` tag.  (The fuel starts at the string length and every
step consumes at least one character, so it never runs out.) -/
def stripHtml (html : String) : String :=
  String.mk (stripHtmlGo html.toList.length html.toList)

/-- The character class appearing in the entity regex of
`decodeHtmlEntities`: ASCII letters, digits and `#`. -/
def isEntityChar (c : Char) : Bool :=
  isAsciiLower c || isAsciiUpper c || isAsciiDigit c || c = '#'

/-- The entity table of `decodeHtmlEntities`
(`src/transform/formatPost.ts`, lines 762–777); an unknown entity is
returned unchanged (the `entities[match] || match` lookup). -/
def entityLookup (s : String) : String :=
  if s = "&amp;" then "&"
  else if s = "&lt;" then "<"
  else if s = "&gt;" then ">"
  else if s = "&quot;" then "\""
  else if s = "&#39;" then "\x27"
  else if s = "&apos;" then "\x27"
  else if s = "&nbsp;" then " "
  else if s = "&hellip;" then "..."
  else if s = "&mdash;" then "—"
  else if s = "&ndash;" then "–"
  else if s = "&lsquo;" then "\x27"
  else if s = "&rsquo;" then "\x27"
  else if s = "&ldquo;" then "\""
  else if s = "&rdquo;" then "\""
  else s

/-- The global replace of the regex "`&`, one or more characters from
`[a-zA-Z0-9#]`, `;`" through `entityLookup` — the body of
`decodeHtmlEntities` (`src/transform/formatPost.ts`, lines 779–781).
At an `&` the greedy run of entity characters is taken; the match succeeds
iff the run is non-empty and the next character is `;` (backtracking the
run cannot help because no run character is a `;`). -/
def decodeEntitiesGo : Nat → List Char → List Char
  | 0, l => l
  | _, [] => []
  | fuel + 1, c :: cs =>
    if c = '&' then
      let run := cs.takeWhile isEntityChar
      let rest := cs.dropWhile isEntityChar
      if run.isEmpty || rest.head? != some ';' then '&' :: decodeEntitiesGo fuel cs
      else (entityLookup (String.mk ('&' :: (run ++ [';'])))).toList
        ++ decodeEntitiesGo fuel rest.tail
    else c :: decodeEntitiesGo fuel cs

/-- `decodeHtmlEntities` from `src/transform/formatPost.ts`
(lines 761–782).  (Fuel-based scanner; the fuel starts at the string
length and every step consumes at least one character.) -/
def decodeHtmlEntities (text : String) : String :=
  String.mk (decodeEntitiesGo text.toList.length text.toList)

/-- `String.prototype.split` with the single-space string separator
(the `split(' ')` word count of `extractFirstSentence`): split at every
space, keeping empty components. -/
def splitOnSpaceGo : Nat → List Char → List Char → List String
  | 0, acc, _ => [String.mk acc.reverse]
  | _, acc, [] => [String.mk acc.reverse]
  | fuel + 1, acc, c :: cs =>
    if c = ' ' then String.mk acc.reverse :: splitOnSpaceGo fuel [] cs
    else splitOnSpaceGo fuel (c :: acc) cs

/-- JS `split(' ')` at the `String` level. -/
def jsSplitOnSpace (s : String) : List String :=
  splitOnSpaceGo s.toList.length [] s.toList

/-- `extractFirstSentence` from `src/transform/formatPost.ts`
(lines 784–799).  The anchored regex "any characters other than `.` `!`
`?`, then one of `.` `!` `?`, then whitespace or end of string" matches
iff the first sentence-ending character of the cleaned text is followed
by whitespace or the end (the leading class excludes the enders, so
backtracking cannot produce another split); the matched text includes the
consumed whitespace character, which the subsequent `trim` removes. -/
def extractFirstSentence (text : String) : String :=
  let cleanText := String.mk (collapseSpaceRuns ' ' false (jsTrimList text.toList))
  let cl := cleanText.toList
  let pre := cl.takeWhile (fun c => c != '.' && c != '!' && c != '?')
  let rest := cl.dropWhile (fun c => c != '.' && c != '!' && c != '?')
  match rest with
  | [] => ""
  | e :: rest2 =>
    let m : Option (List Char) :=
      match rest2 with
      | [] => some (pre ++ [e])
      | c :: _ => if isJsSpace c then some (pre ++ [e, c]) else none
    match m with
    | none => ""
    | some matched =>
      let sentence := jsTrim (String.mk matched)
      if sentence.length > 10 ∧ (jsSplitOnSpace sentence).length > 3 then sentence
      else ""

/-- `String.prototype.split` with the whitespace-run regex (used as
`text.split` on the `\s`-plus pattern): split at maximal whitespace runs;
a leading (resp. trailing) run contributes a leading (resp. trailing)
empty component, and the empty string yields `[""]`. -/
def splitWsGo : Nat → List Char → List Char → List String
  | 0, acc, _ => [String.mk acc.reverse]
  | _, acc, [] => [String.mk acc.reverse]
  | fuel + 1, acc, c :: cs =>
    if isJsSpace c then
      String.mk acc.reverse :: splitWsGo fuel [] (cs.dropWhile isJsSpace)
    else splitWsGo fuel (c :: acc) cs

/-- JS `split` on whitespace runs, at the `String` level.  (Fuel-based
scanner; the fuel starts at the string length and every step consumes at
least one character.) -/
def jsSplitWhitespace (s : String) : List String :=
  splitWsGo s.toList.length [] s.toList

/-- `extractFirstWords` from `src/transform/formatPost.ts`
(lines 801–816). -/
def extractFirstWords (text : String) (maxWords : Nat) : String :=
  let cleanText := String.mk (collapseSpaceRuns ' ' false (jsTrimList text.toList))
  let words := (jsSplitWhitespace cleanText).take maxWords
  let meaningfulWords := words.filter (fun w => w.length > 1)
  if meaningfulWords.length ≥ 3 then " ".intercalate meaningfulWords
  else ""

/-- The word-boundary capitalization of `humanizeSlug`: the global replace
of "word character at a word boundary" by its uppercase — i.e. uppercase
every word character whose predecessor is absent or not a word
character.  The `Bool` state records whether the previous character was a
word character. -/
def capitalizeWordStarts : Bool → List Char → List Char
  | _, [] => []
  | prevWord, c :: cs =>
    if isWordChar c && !prevWord then upperAsciiChar c :: capitalizeWordStarts true cs
    else c :: capitalizeWordStarts (isWordChar c) cs

/-- `humanizeSlug` from `src/transform/formatPost.ts` (lines 729–734):
hyphens to spaces, capitalize word starts, trim. -/
def humanizeSlug (slug : String) : String :=
  jsTrim (String.mk (capitalizeWordStarts false
    (slug.toList.map (fun c => if c == '-' then ' ' else c))))

/-- `truncateToWords` from `src/transform/formatPost.ts` (lines 818–825). -/
def truncateToWords (text : String) (maxWords : Nat) : String :=
  let words := jsSplitWhitespace text
  if words.length ≤ maxWords then text
  else " ".intercalate (words.take maxWords)

/-- Civil date (proleptic Gregorian, UTC) from days since 1970-01-01,
for the embedding of JS `Date.prototype.toISOString` on non-negative
integer timestamps. Returns `(year, month, day)`. -/
def civilFromDays (z0 : Nat) : Nat × Nat × Nat :=
  let z := z0 + 719468
  let era := z / 146097
  let doe := z % 146097
  let yoe := (doe - doe / 1460 + doe / 36524 - doe / 146096) / 365
  let y := yoe + era * 400
  let doy := doe - (365 * yoe + yoe / 4 - yoe / 100)
  let mp := (5 * doy + 2) / 153
  let d := doy - (153 * mp + 2) / 5 + 1
  let m := if mp < 10 then mp + 3 else mp - 9
  (if m ≤ 2 then y + 1 else y, m, d)

/-- Zero-pad a number below 100 to two digits. -/
def pad2 (n : Nat) : String := if n < 10 then "0" ++ toString n else toString n

/-- The `YYYY-MM-DD` part of `toISOString` for a timestamp in seconds
(all timestamps in this pipeline are at or after 1970, hence four-digit
years). -/
def isoDateString (ts : Nat) : String :=
  let c := civilFromDays (ts / 86400)
  toString c.1 ++ "-" ++ pad2 c.2.1 ++ "-" ++ pad2 c.2.2

/-- `new Date(ts * 1000).toISOString().replace('T', ' ').replace('Z', '')`
for an integer-second timestamp `ts`, as computed at the top of
`transform` (`src/transform/formatPost.ts`, lines 499–500): the UTC date,
a space, the UTC time, and a `.000` milliseconds field. -/
def isoTimestampString (ts : Nat) : String :=
  let secs := ts % 86400
  isoDateString ts ++ " " ++ pad2 (secs / 3600) ++ ":" ++ pad2 ((secs % 3600) / 60)
    ++ ":" ++ pad2 (secs % 60) ++ ".000"

/-- Step 2 of `extractTitle` (`src/transform/formatPost.ts`, lines
536–552): when the body is non-blank, try the first sentence of the
stripped, entity-decoded body, then the first ten words; `none` means the
step rejected and control falls through to the slug step. -/
def titleFromBody (p : TumblrPost) : Option String :=
  if jsTrim p.body ≠ "" then
    let plainText := stripHtml p.body
    let decodedText := decodeHtmlEntities plainText
    let firstSentence := extractFirstSentence decodedText
    if firstSentence ≠ "" ∧ firstSentence.length > 10 then some firstSentence
    else
      let firstWords := extractFirstWords decodedText 10
      if firstWords ≠ "" ∧ firstWords.length > 5 then some firstWords
      else none
  else none

/-- Step 3 of `extractTitle` (`src/transform/formatPost.ts`, lines
555–561): the humanized platform slug, truncated to 12 words, accepted
when longer than 5 characters. -/
def titleFromSlug (p : TumblrPost) : Option String :=
  if jsTrim p.slug ≠ "" then
    let truncatedSlug := truncateToWords (humanizeSlug p.slug) 12
    if truncatedSlug.length > 5 then some truncatedSlug else none
  else none

/-- Step 4 of `extractTitle` (`src/transform/formatPost.ts`, lines
563–566): `"Post from YYYY-MM-DD"` from the post timestamp. -/
def dateFallbackTitle (p : TumblrPost) : String :=
  "Post from " ++ isoDateString p.timestamp

/-- `extractTitle` from `src/transform/formatPost.ts` (lines 530–567,
second draft): explicit title, else body-derived, else humanized slug,
else date fallback.  The early returns of the source become an `Option`
chain. -/
def extractTitle (p : TumblrPost) : String :=
  if jsTrim p.title ≠ "" then jsTrim p.title
  else
    match titleFromBody p with
    | some t => t
    | none =>
      match titleFromSlug p with
      | some t => t
      | none => dateFallbackTitle p

/-- `slugify` from `src/transform/formatPost.ts` (lines 747–754):
lowercase; delete every character that is not a word character,
whitespace or hyphen; replace whitespace runs by hyphens; collapse hyphen
runs; trim. -/
def slugify (text : String) : String :=
  jsTrim (String.mk (collapseHyphenRuns false (collapseSpaceRuns '-' false
    ((text.toList.map lowerAsciiChar).filter
      (fun c => isWordChar c || isJsSpace c || c = '-')))))

/-- `generateSlug` from `src/transform/formatPost.ts` (lines 736–745):
the platform slug verbatim when present, otherwise the slugified derived
title. -/
def generateSlug (p : TumblrPost) : String :=
  if p.slug ≠ "" then p.slug
  else slugify (extractTitle p)

/-- Quote characters accepted by the image/row regexes (double or single
quote). -/
def isQuoteChar (c : Char) : Bool := c = '"' || c = '\x27'

/-- Positions (in increasing order) at which the literal `lit` starts
case-insensitively, restricted to the region before the first `>` — the
candidate end points of a greedy `[^>]*` (or `[^>]+`) gap that must be
followed by `lit`. -/
def literalCandidatesGo (lit : List Char) : Nat → List Char → List Nat
  | _, [] => []
  | k, c :: cs =>
    if c = '>' then []
    else if startsWithCI lit (c :: cs) then k :: literalCandidatesGo lit (k + 1) cs
    else literalCandidatesGo lit (k + 1) cs

/-- The deterministic tail of the image regexes after `src=`: a quote (of
either kind), a non-empty maximal run of non-quote characters (the
captured source URL), a quote, then any characters other than `>`, then
`>`.  Returns the capture and the remainder after the whole match. -/
def tryRestAfterSrc (rest : List Char) : Option (List Char × List Char) :=
  match rest with
  | [] => none
  | q :: u =>
    if isQuoteChar q then
      let cap := u.takeWhile (fun c => !isQuoteChar c)
      let after := u.dropWhile (fun c => !isQuoteChar c)
      if cap.isEmpty then none
      else
        match after with
        | [] => none
        | _ :: v =>
          match v.dropWhile (fun c => c != '>') with
          | '>' :: rest2 => some (cap, rest2)
          | _ => none
    else none

/-- Match one of the two `<img ... src="...">` regexes at the start of
`l`: prefix `pre` (case-insensitively), a gap of at least `minGap`
characters other than `>`, the literal `src=`, then `tryRestAfterSrc`.
Greedy backtracking of the gap means trying the rightmost `src=`
candidate first. -/
def imgMatchAt (pre : List Char) (minGap : Nat) (l : List Char) :
    Option (List Char × List Char) :=
  if startsWithCI pre l then
    let t := l.drop pre.length
    ((literalCandidatesGo ['s', 'r', 'c', '='] 0 t).filter (fun k => minGap ≤ k)).reverse.findSome?
      (fun k => tryRestAfterSrc (t.drop (k + 4)))
  else none

/-- The `exec` loop shared by the two image regexes: scan the string left
to right; at a match, record the captured source URL (dropping it when
`filterData` is set and it starts with `data:`, as in
`extractImagesFromHtml`) and resume after the match, otherwise advance one
character.  Fuel-based recursion; the initial fuel is the string length,
and every step consumes at least one character. -/
def scanImgsGo (pre : List Char) (minGap : Nat) (filterData : Bool) :
    Nat → List Char → List String
  | 0, _ => []
  | _, [] => []
  | fuel + 1, c :: cs =>
    match imgMatchAt pre minGap (c :: cs) with
    | some (cap, rest) =>
      if filterData && startsWithRaw ['d', 'a', 't', 'a', ':'] cap then
        scanImgsGo pre minGap filterData fuel rest
      else String.mk cap :: scanImgsGo pre minGap filterData fuel rest
    | none => scanImgsGo pre minGap filterData fuel cs

/-- `extractImagesFromHtml` from `src/transform/formatPost.ts`
(lines 682–695, and the identical first-draft copy at lines 314–327): all
`<img ... src="...">` source URLs, in document order, skipping `data:`
URIs.  The regex is `<img`, one or more non-`>` characters, `src=`, a
quoted URL, then the rest of the tag, with the `gi` flags. -/
def extractImagesFromHtml (html : String) : List String :=
  scanImgsGo ['<', 'i', 'm', 'g'] 1 true html.toList.length html.toList

/-- `extractFeatureImage` from `src/transform/formatPost.ts`
(lines 712–727): the first body-extracted image when the body is present
and yields one; otherwise the `original_size` URL of the first entry of
`photos` when that array is non-empty; otherwise `null`. -/
def extractFeatureImage (p : TumblrPost) : Option String :=
  match (if p.body ≠ "" then (extractImagesFromHtml p.body).head? else none) with
  | some u => some u
  | none =>
    match p.photos.head? with
    | some ph => some ph.original_size.url
    | none => none

/-- Split `l` at the first case-insensitive occurrence of `pat`:
`some (before, after)` with `l = before ++ pat-occurrence ++ after`,
or `none` when `pat` does not occur — the semantics of a lazy capture
followed by the literal `pat`. -/
def splitAtFirstCI (pat : List Char) : List Char → Option (List Char × List Char)
  | [] => if pat.isEmpty then some ([], []) else none
  | c :: cs =>
    if startsWithCI pat (c :: cs) then some ([], (c :: cs).drop pat.length)
    else (splitAtFirstCI pat cs).map (fun p => (c :: p.1, p.2))

/-- The deterministic tail of the gallery row regex after `class=`: a
quote, a maximal run of non-quote characters that must contain `npf_row`
(case-insensitively), a quote, any characters other than `>`, `>`, then
the lazy capture up to the first `</div>`.  Returns the captured row
inner HTML and the remainder after the whole match. -/
def tryRowRestAfterClass (u : List Char) : Option (List Char × List Char) :=
  match u with
  | [] => none
  | q :: v =>
    if isQuoteChar q then
      let val := v.takeWhile (fun c => !isQuoteChar c)
      let afterVal := v.dropWhile (fun c => !isQuoteChar c)
      if containsCI ['n', 'p', 'f', '_', 'r', 'o', 'w'] val then
        match afterVal with
        | [] => none
        | _ :: w =>
          match w.dropWhile (fun c => c != '>') with
          | '>' :: y => splitAtFirstCI ['<', '/', 'd', 'i', 'v', '>'] y
          | _ => none
      else none
    else none

/-- Match the gallery row regex of `convertTumblrGalleryToGhostGallery`
(`src/transform/formatPost.ts`, line 572) at the start of `l`: `<div`,
any characters other than `>`, `class=`, a quoted value containing
`npf_row`, the rest of the opening tag, then a lazy capture up to
`</div>`, all case-insensitive.  Greedy backtracking of the gap before
`class=` tries the rightmost candidate first. -/
def rowMatchAt (l : List Char) : Option (List Char × List Char) :=
  if startsWithCI ['<', 'd', 'i', 'v'] l then
    let t := l.drop 4
    (literalCandidatesGo ['c', 'l', 'a', 's', 's', '='] 0 t).reverse.findSome?
      (fun k => tryRowRestAfterClass (t.drop (k + 6)))
  else none

/-- The row-collecting `exec` loop of `convertTumblrGalleryToGhostGallery`
(lines 581–597): returns the text before the first row match, the
captured inner HTML of every row match, and the text after the last row
match (`body.slice(0, galleryStart)` and `body.slice(lastIndex)` in the
source; text between row matches is discarded by that slicing).  When no
row matches, the whole input is returned as the "before" component. -/
def scanRowsGo : Nat → List Char → List Char × List (List Char) × List Char
  | 0, l => (l, [], [])
  | _, [] => ([], [], [])
  | fuel + 1, c :: cs =>
    match rowMatchAt (c :: cs) with
    | some (inner, rest) =>
      match scanRowsGo fuel rest with
      | (tail1, [], _) => ([], [inner], tail1)
      | (_, inners, after) => ([], inner :: inners, after)
    | none =>
      match scanRowsGo fuel cs with
      | (before, inners, after) => (c :: before, inners, after)

/-- One iteration of the row-repacking loop of
`convertTumblrGalleryToGhostGallery` (lines 612–629): append the Tumblr
row's images to the running buffer; flush a Ghost row when the buffer
holds 2 or 3 images; when it holds more than 3, flush the first 3 and
carry the remainder; a single image is carried to the next iteration. -/
def packGhostRowsStep (acc : List (List String) × List String)
    (tumblrRow : List String) : List (List String) × List String :=
  let currentRow := acc.2 ++ tumblrRow
  if 2 ≤ currentRow.length ∧ currentRow.length ≤ 3 then (acc.1 ++ [currentRow], [])
  else if currentRow.length > 3 then (acc.1 ++ [currentRow.take 3], currentRow.drop 3)
  else (acc.1, currentRow)

/-- The full row repacking of `convertTumblrGalleryToGhostGallery`
(lines 608–640): fold the loop above over the Tumblr rows, then handle a
single leftover image — merged into the last emitted row when that row
holds exactly 2 images, otherwise emitted as a row of its own.  (A
leftover of more than one image is dropped, as in the source, which only
tests `currentRow.length === 1`.) -/
def packGhostRows (galleryRows : List (List String)) : List (List String) :=
  let folded := galleryRows.foldl packGhostRowsStep ([], [])
  let rows := folded.1
  let current := folded.2
  if current.length = 1 then
    if rows ≠ [] ∧ (rows.getLast?.getD []).length = 2 then
      rows.dropLast ++ [rows.getLast?.getD [] ++ current]
    else rows ++ [current]
  else rows

/-- The per-image HTML of the Ghost gallery builder (line 647). -/
def galleryImageHtml (src : String) : String :=
  "<div class=\"kg-gallery-image\"><img src=\"" ++ src ++ "\" loading=\"lazy\" alt=\"\" /></div>"

/-- The per-row HTML of the Ghost gallery builder (lines 645–649). -/
def galleryRowHtml (row : List String) : String :=
  "<div class=\"kg-gallery-row\">" ++ String.join (row.map galleryImageHtml) ++ "</div>"

/-- The gallery figure HTML of the Ghost gallery builder (lines 643–651). -/
def buildGalleryHtml (ghostRows : List (List String)) : String :=
  "<figure class=\"kg-card kg-gallery-card kg-width-wide\"><div class=\"kg-gallery-container\">"
    ++ String.join (ghostRows.map galleryRowHtml) ++ "</div></figure>"

/-- The per-row image extraction of `convertTumblrGalleryToGhostGallery`
(lines 586–595): all `<img ... src="...">` URLs of a row's inner HTML, in
order, via the regex `<img ` (with a literal space), any characters other
than `>`, `src=`, a quoted URL, the rest of the tag (`gi` flags, no
`data:` filtering). -/
def rowImages (row : List Char) : List String :=
  scanImgsGo ['<', 'i', 'm', 'g', ' '] 0 false row.length row

/-- The non-empty image rows collected across the body's gallery row
containers (`galleryRows` in the source, lines 574–597). -/
def galleryRowsOf (body : String) : List (List String) :=
  ((scanRowsGo body.toList.length body.toList).2.1.map rowImages).filter
    (fun r => !r.isEmpty)

/-- The repacked Ghost gallery rows produced for a body — the `ghostRows`
of the source (lines 609–640). -/
def ghostRowsOf (body : String) : List (List String) :=
  packGhostRows (galleryRowsOf body)

/-- `convertTumblrGalleryToGhostGallery` from `src/transform/formatPost.ts`
(lines 570–674): find the gallery row containers, repack their images
into rows of 2–3, and emit text before the first row and after the last
row around the rebuilt gallery block (each only when non-blank); an empty
result becomes `<p></p>`. -/
def convertTumblrGalleryToGhostGallery (body : String) : String :=
  let bl := body.toList
  let scanned := scanRowsGo bl.length bl
  let found := !scanned.2.1.isEmpty
  let galleryRows := (scanned.2.1.map rowImages).filter (fun r => !r.isEmpty)
  let galleryHtml :=
    if found ∧ galleryRows ≠ [] then buildGalleryHtml (packGhostRows galleryRows) else ""
  let textBefore := if found then String.mk scanned.1 else body
  let textAfter := String.mk scanned.2.2
  let html := (if jsTrim textBefore ≠ "" then textBefore else "")
    ++ galleryHtml ++ (if jsTrim textAfter ≠ "" then textAfter else "")
  if html = "" then "<p></p>" else html

/-- `convertToHtml` from the second draft of `src/transform/formatPost.ts`
(lines 676–680): every post type is treated the same — convert galleries,
preserve the rest of the body HTML. -/
def convertToHtml (p : TumblrPost) : String :=
  convertTumblrGalleryToGhostGallery p.body

/-- The `GhostPost` interface of `src/transform/formatPost.ts`
(lines 421–446).  `string | null` fields are `Option String`;
`number` fields are `Nat` (the source only ever stores 0 or 1). -/
structure GhostPost where
  id : String
  uuid : String
  title : String
  slug : String
  mobiledoc : Option String
  html : Option String
  comment_id : Option String
  feature_image : Option String
  featured : Nat
  type : String
  status : String
  locale : Option String
  visibility : String
  email_recipient_filter : String
  published_at : String
  created_at : String
  updated_at : String
  custom_excerpt : Option String
  codeinjection_head : Option String
  codeinjection_foot : Option String
  custom_template : Option String
  canonical_url : Option String
  newsletter_id : Option String
  show_title_and_feature_image : Option Nat
  deriving DecidableEq, Repr

/-- `transform` from `src/transform/formatPost.ts` (lines 498–528, second
draft).  The source calls `uuidv4()`, a random v4 UUID generator; the
value it returns for this call is passed in as `freshUuid`, so that the
embedding is a function of the post and of that external random input. -/
def transform (p : TumblrPost) (freshUuid : String) : GhostPost :=
  let timestampString := isoTimestampString p.timestamp
  { id := p.id
    uuid := freshUuid
    title := extractTitle p
    slug := generateSlug p
    mobiledoc := none
    html := some (convertToHtml p)
    comment_id := some p.id
    feature_image := extractFeatureImage p
    featured := 0
    type := "post"
    status := "published"
    locale := none
    visibility := "public"
    email_recipient_filter := "all"
    published_at := timestampString
    created_at := timestampString
    updated_at := timestampString
    custom_excerpt := none
    codeinjection_head := none
    codeinjection_foot := none
    custom_template := none
    canonical_url := none
    newsletter_id := none
    show_title_and_feature_image := some 1 }

/-- The global replace by the empty string of "`lit`, then any characters
other than `"`, then `"`" — the shape of the `class=`/`srcset=`/`sizes=`
attribute-stripping regexes of the first draft's `cleanHtml`
(`src/transform/formatPost.ts`, lines 341–344); `lit` includes the opening
quote. -/
def removeAttrGo (lit : List Char) : Nat → List Char → List Char
  | 0, l => l
  | _, [] => []
  | fuel + 1, c :: cs =>
    if startsWithRaw lit (c :: cs) then
      let t := (c :: cs).drop lit.length
      match t.dropWhile (fun ch => ch != '"') with
      | '"' :: rest => removeAttrGo lit fuel rest
      | _ => c :: removeAttrGo lit fuel cs
    else c :: removeAttrGo lit fuel cs

/-- `removeAttrGo` at the `String` level. -/
def removeAttr (lit : String) (s : String) : String :=
  String.mk (removeAttrGo lit.toList s.toList.length s.toList)

/-- The global replace by the empty string of the `data-` attribute regex
of `cleanHtml` (line 342): `data-`, then any characters other than `=`
(greedily, up to the first `=` — backtracking cannot move the boundary
since the run contains no `=`), then `="`, then any characters other than
`"`, then `"`. -/
def removeDataAttrGo : Nat → List Char → List Char
  | 0, l => l
  | _, [] => []
  | fuel + 1, c :: cs =>
    if startsWithRaw ['d', 'a', 't', 'a', '-'] (c :: cs) then
      let t := (c :: cs).drop 5
      match t.dropWhile (fun ch => ch != '=') with
      | '=' :: '"' :: v =>
        match v.dropWhile (fun ch => ch != '"') with
        | '"' :: rest => removeDataAttrGo fuel rest
        | _ => c :: removeDataAttrGo fuel cs
      | _ => c :: removeDataAttrGo fuel cs
    else c :: removeDataAttrGo fuel cs

/-- The global replace by the empty string of a fixed literal (the
`<p></p>` and `<div></div>` cleanups of `cleanHtml`, lines 347–348). -/
def removeLiteralGo (lit : List Char) : Nat → List Char → List Char
  | 0, l => l
  | _, [] => []
  | fuel + 1, c :: cs =>
    if startsWithRaw lit (c :: cs) then
      removeLiteralGo lit fuel ((c :: cs).drop lit.length)
    else c :: removeLiteralGo lit fuel cs

/-- `removeLiteralGo` at the `String` level. -/
def removeLiteral (lit : String) (s : String) : String :=
  String.mk (removeLiteralGo lit.toList s.toList.length s.toList)

/-- The global replace by the empty string of the regex "`<img`, any
characters other than `>`, `>`" with the `gi` flags — the image-removal
step of `extractTextFromHtml` (first draft line 331, second draft
line 699). -/
def removeImgTagsGo : Nat → List Char → List Char
  | 0, l => l
  | _, [] => []
  | fuel + 1, c :: cs =>
    if startsWithCI ['<', 'i', 'm', 'g'] (c :: cs) then
      let t := (c :: cs).drop 4
      match t.dropWhile (fun ch => ch != '>') with
      | '>' :: rest => removeImgTagsGo fuel rest
      | _ => c :: removeImgTagsGo fuel cs
    else c :: removeImgTagsGo fuel cs

/-- `removeImgTagsGo` at the `String` level. -/
def removeImgTags (s : String) : String :=
  String.mk (removeImgTagsGo s.toList.length s.toList)

/-- The global replace of one character by a string (the five steps of
`escapeHtml`). -/
def replaceCharBy (c : Char) (r : String) (s : String) : String :=
  String.mk (s.toList.foldr (fun ch acc => (if ch = c then r.toList else [ch]) ++ acc) [])

/-- `escapeHtml` from `src/transform/formatPost.ts` (first draft lines
360–367, second draft lines 703–710): escape `&`, `<`, `>`, `"`, `'`, in
that order (so the ampersands introduced by the later steps are not
re-escaped). -/
def escapeHtml (text : String) : String :=
  replaceCharBy '\x27' "&#39;"
    (replaceCharBy '"' "&quot;"
      (replaceCharBy '>' "&gt;"
        (replaceCharBy '<' "&lt;"
          (replaceCharBy '&' "&amp;" text))))

namespace V1

/-- `cleanHtml` from the first draft of `src/transform/formatPost.ts`
(lines 339–354): strip `class`/`data-*`/`srcset`/`sizes` attributes,
remove empty `<p></p>`/`<div></div>` elements, collapse whitespace runs
to single spaces, trim. -/
def cleanHtml (html : String) : String :=
  let s1 := removeAttr "class=\"" html
  let s2 := String.mk (removeDataAttrGo s1.toList.length s1.toList)
  let s3 := removeAttr "srcset=\"" s2
  let s4 := removeAttr "sizes=\"" s3
  let s5 := removeLiteral "<p></p>" s4
  let s6 := removeLiteral "<div></div>" s5
  jsTrim (String.mk (collapseSpaceRuns ' ' false s6.toList))

/-- `extractTextFromHtml` from the first draft (lines 329–337): remove all
image tags, clean the remaining HTML, trim. -/
def extractTextFromHtml (html : String) : String :=
  jsTrim (cleanHtml (removeImgTags html))

/-- `processTextPost` from the first draft (lines 166–196). -/
def processTextPost (p : TumblrPost) : String :=
  if p.body = "" then "<p></p>"
  else
    let images := extractImagesFromHtml p.body
    let textContent := extractTextFromHtml p.body
    let html :=
      if images ≠ [] then
        (if jsTrim textContent ≠ "" then textContent else "")
          ++ String.join (images.map (fun u => "<img src=\"" ++ u ++ "\" alt=\"\" />"))
      else cleanHtml p.body
    if html = "" then "<p></p>" else html

/-- `processPhotoPost` from the first draft (lines 198–216): text content
followed by the images extracted from the body (the `photos` array is not
consulted). -/
def processPhotoPost (p : TumblrPost) : String :=
  let images := extractImagesFromHtml p.body
  let textContent := extractTextFromHtml p.body
  let html :=
    (if jsTrim textContent ≠ "" then textContent else "")
      ++ String.join (images.map (fun u => "<img src=\"" ++ u ++ "\" alt=\"\" />"))
  if html = "" then "<p></p>" else html

/-- `processQuotePost` from the first draft (lines 218–230). -/
def processQuotePost (p : TumblrPost) : String :=
  "<blockquote>" ++ "<p>" ++ escapeHtml p.quote_text ++ "</p>"
    ++ (if p.quote_source ≠ "" then "<cite>— " ++ escapeHtml p.quote_source ++ "</cite>" else "")
    ++ "</blockquote>"

/-- `processLinkPost` from the first draft (lines 232–245). -/
def processLinkPost (p : TumblrPost) : String :=
  let title := if p.title ≠ "" then p.title else "Link"
  "<div class=\"link-post\">"
    ++ "<h3><a href=\"" ++ p.link_url ++ "\">" ++ escapeHtml title ++ "</a></h3>"
    ++ (if p.body ≠ "" then "<p>" ++ cleanHtml p.body ++ "</p>" else "")
    ++ "</div>"

/-- `processChatPost` from the first draft (lines 247–262). -/
def processChatPost (p : TumblrPost) : String :=
  if p.chat = [] then "<p>No chat content</p>"
  else
    "<div class=\"chat-post\">"
      ++ String.join (p.chat.map (fun m =>
        "<div class=\"chat-message\">"
          ++ "<span class=\"chat-name\">" ++ escapeHtml m.name ++ ":</span>"
          ++ "<span class=\"chat-text\">" ++ escapeHtml m.phrase ++ "</span>"
          ++ "</div>"))
      ++ "</div>"

/-- `processAudioPost` from the first draft (lines 264–279). -/
def processAudioPost (p : TumblrPost) : String :=
  (if p.audio_url ≠ "" then
    "<audio controls><source src=\"" ++ p.audio_url
      ++ "\" type=\"audio/mpeg\">Your browser does not support the audio element.</audio>"
  else "<p>No audio found</p>")
    ++ (if p.body ≠ "" then cleanHtml p.body else "")

/-- `processVideoPost` from the first draft (lines 281–296). -/
def processVideoPost (p : TumblrPost) : String :=
  (if p.video_url ≠ "" then
    "<video controls><source src=\"" ++ p.video_url
      ++ "\" type=\"video/mp4\">Your browser does not support the video element.</video>"
  else "<p>No video found</p>")
    ++ (if p.body ≠ "" then cleanHtml p.body else "")

/-- `processAnswerPost` from the first draft (lines 298–312). -/
def processAnswerPost (p : TumblrPost) : String :=
  "<div class=\"answer-post\">"
    ++ (if p.question ≠ "" then
      "<div class=\"question\"><strong>Q: " ++ escapeHtml p.question ++ "</strong></div>"
    else "")
    ++ (if p.answer ≠ "" then
      "<div class=\"answer\"><strong>A: " ++ escapeHtml p.answer ++ "</strong></div>"
    else "")
    ++ "</div>"

/-- `convertToHtml` from the first draft of `src/transform/formatPost.ts`
(lines 142–164): dispatch on the post `type` over the eight recognized
types; any other type yields the unsupported-type placeholder paragraph.
The function is total — no branch throws. -/
def convertToHtml (p : TumblrPost) : String :=
  if p.type = "text" then processTextPost p
  else if p.type = "photo" then processPhotoPost p
  else if p.type = "quote" then processQuotePost p
  else if p.type = "link" then processLinkPost p
  else if p.type = "chat" then processChatPost p
  else if p.type = "audio" then processAudioPost p
  else if p.type = "video" then processVideoPost p
  else if p.type = "answer" then processAnswerPost p
  else "<p>Unsupported post type: " ++ p.type ++ "</p>"

end V1

namespace GhostExporter

/-- The `GhostTag` record consumed and produced by the exporter drafts
(`extractUniqueTags`, `validateTag` in `src/export/jsonWriter.ts`):
numeric id, display name, slug, description. -/
structure GhostTag where
  id : Nat
  name : String
  slug : String
  description : String
  deriving DecidableEq, Repr

/-- The `GhostUser` record built by `extractUniqueAuthors`
(`src/export/jsonWriter.ts`, lines 353–376) and checked by
`validateAuthor`. -/
structure GhostUser where
  id : Nat
  name : String
  slug : String
  email : String
  status : String
  created_at : String
  updated_at : String
  deriving DecidableEq, Repr

/-- A role record of `createDefaultRoles` (lines 401–412). -/
structure GhostRole where
  id : Nat
  name : String
  description : String
  created_at : Nat
  updated_at : Nat
  deriving DecidableEq, Repr

/-- A post–tag join row (lines 378–392). -/
structure PostTag where
  post_id : String
  tag_id : Nat
  deriving DecidableEq, Repr

/-- A post–author join row (lines 394–399). -/
structure PostAuthor where
  post_id : String
  author_id : Nat
  deriving DecidableEq, Repr

/-- A role–user join row (lines 414–419). -/
structure RoleUser where
  role_id : Nat
  user_id : Nat
  deriving DecidableEq, Repr

/-- The `AuthorConfig` of `src/transform/formatPost.ts` (lines 448–452). -/
structure AuthorConfig where
  name : String
  email : String
  slug : String
  deriving DecidableEq, Repr

/-- The post record shape the exporter functions actually consume: the
fields read by the second draft of `src/export/jsonWriter.ts`
(`id`, `author_id`, `title`, `slug`, `mobiledoc`, `status`,
`published_at`, `created_at`, `updated_at`) together with the `tags`
array read by the first draft's `extractUniqueTags` (line 86).  The two
drafts' own `GhostPost` interfaces are mutually inconsistent (the second
draft's transformer record has neither `author_id` nor `tags`, yet the
exporter reads both), so this record merges the fields either exporter
draft dereferences; functions that do not read a field ignore it. -/
structure GhostPost where
  id : String
  author_id : Nat
  title : String
  slug : String
  mobiledoc : Option String
  status : String
  published_at : String
  created_at : String
  updated_at : String
  tags : List GhostTag
  deriving DecidableEq, Repr

/-- The `meta` block of the export document (lines 231–234). -/
structure ExportMeta where
  exported_on : Nat
  version : String
  deriving DecidableEq, Repr

/-- The `data` block of the export document (lines 235–243). -/
structure ExportData where
  posts : List GhostPost
  tags : List GhostTag
  users : List GhostUser
  posts_tags : List PostTag
  posts_authors : List PostAuthor
  roles : List GhostRole
  roles_users : List RoleUser
  deriving DecidableEq, Repr

/-- The `GhostExport` document shape of `src/export/jsonWriter.ts`
(lines 230–244, second draft). -/
structure GhostExport where
  meta : ExportMeta
  data : ExportData
  deriving DecidableEq, Repr

/-- `extractUniqueTags` from the second draft of
`src/export/jsonWriter.ts` (lines 334–351): the posts' own tags are
ignored; a single default `Imported` tag (id 1) is created as soon as the
post list is non-empty. -/
def extractUniqueTags (posts : List GhostPost) : List GhostTag :=
  if posts.isEmpty then []
  else [{ id := 1, name := "Imported", slug := "imported",
          description := "Posts imported from Tumblr" }]

/-- The `authorConfig?.name || 'Imported User'` defaulting of
`extractUniqueAuthors` (lines 358–361): the default applies when the
config is absent or the field is the empty string (both falsy). -/
def cfgField (cfg : Option AuthorConfig) (f : AuthorConfig → String)
    (dflt : String) : String :=
  match cfg with
  | none => dflt
  | some c => if f c = "" then dflt else f c

/-- `extractUniqueAuthors` from the second draft (lines 353–376): one
`GhostUser` per distinct `author_id`, in first-seen order, built from
the author config (with defaults) and the first-seen post's
timestamps. -/
def extractUniqueAuthors (cfg : Option AuthorConfig)
    (posts : List GhostPost) : List GhostUser :=
  posts.foldl (fun acc p =>
    if acc.any (fun u => u.id = p.author_id) then acc
    else acc ++ [{ id := p.author_id
                   name := cfgField cfg (fun c => c.name) "Imported User"
                   slug := cfgField cfg (fun c => c.slug) "imported-user"
                   email := cfgField cfg (fun c => c.email) "imported@example.com"
                   status := "active"
                   created_at := p.created_at
                   updated_at := p.updated_at }]) []

/-- `createPostsTags` from the second draft (lines 378–392): when the tag
collection is empty there are no rows; otherwise every post is linked to
the **first** tag of the collection, one row per post. -/
def createPostsTags (posts : List GhostPost) (tags : List GhostTag) :
    List PostTag :=
  match tags.head? with
  | none => []
  | some t0 => posts.map (fun p => { post_id := p.id, tag_id := t0.id })

/-- `createPostsAuthors` from the second draft (lines 394–399). -/
def createPostsAuthors (posts : List GhostPost) : List PostAuthor :=
  posts.map (fun p => { post_id := p.id, author_id := p.author_id })

/-- `createDefaultRoles` from the second draft (lines 401–412); the
`Date.now()` timestamp is passed in as `now`. -/
def createDefaultRoles (now : Nat) : List GhostRole :=
  [{ id := 1, name := "Author", description := "Authors",
     created_at := now, updated_at := now }]

/-- `createRolesUsers` from the second draft (lines 414–419). -/
def createRolesUsers (authors : List GhostUser) : List RoleUser :=
  authors.map (fun a => { role_id := 1, user_id := a.id })

/-- The slug test of the validators: `^[a-z0-9-]+$` — non-empty, and
every character a lowercase ASCII letter, digit or hyphen. -/
def slugPatternMatches (s : String) : Bool :=
  !s.isEmpty && s.toList.all (fun c => isAsciiLower c || isAsciiDigit c || c = '-')

/-- The email test of `validateAuthor` — the regex "one or more
characters that are neither whitespace nor `@`, then `@`, then the same,
then `.`, then the same".  Equivalently: no whitespace, exactly one `@`
that is not the first character, and after the `@` a `.` with at least
one character on each side. -/
def emailPatternMatches (s : String) : Bool :=
  let l := s.toList
  let a := l.takeWhile (fun c => c != '@')
  match l.dropWhile (fun c => c != '@') with
  | '@' :: b =>
    !a.isEmpty && a.all (fun c => !isJsSpace c)
      && b.all (fun c => !isJsSpace c && c != '@')
      && b.tail.dropLast.contains '.'
  | _ => false

/-- `validatePost` from the second draft of `src/export/jsonWriter.ts`
(lines 465–481): the required-field loop (`id`, `title`, `mobiledoc`,
`status`, `published_at`, each tested for JS truthiness — a missing or
empty value throws), then the mobiledoc blank check, then the slug
pattern.  The thrown `Error` is an `Except.error` carrying the message;
the first failure wins, as a throw aborts the loop. -/
def validatePost (p : GhostPost) : Except String Unit := do
  if p.id = "" then throw "Post missing required field: id"
  if p.title = "" then throw "Post missing required field: title"
  if p.mobiledoc = none ∨ p.mobiledoc = some "" then
    throw "Post missing required field: mobiledoc"
  if p.status = "" then throw "Post missing required field: status"
  if p.published_at = "" then throw "Post missing required field: published_at"
  match p.mobiledoc with
  | none => throw ("Post " ++ p.id ++ " has empty mobiledoc content")
  | some m =>
    if jsTrim m = "" then throw ("Post " ++ p.id ++ " has empty mobiledoc content")
  if !slugPatternMatches p.slug then
    throw ("Post " ++ p.id ++ " has invalid slug: " ++ p.slug)

/-- `validateTag` from the second draft (lines 483–495); note that a
numeric id of 0 is falsy in JS, hence "missing". -/
def validateTag (t : GhostTag) : Except String Unit := do
  if t.id = 0 then throw "Tag missing required field: id"
  if t.name = "" then throw "Tag missing required field: name"
  if t.slug = "" then throw "Tag missing required field: slug"
  if !slugPatternMatches t.slug then
    throw ("Tag " ++ toString t.id ++ " has invalid slug: " ++ t.slug)

/-- `validateAuthor` from the second draft (lines 497–514). -/
def validateAuthor (a : GhostUser) : Except String Unit := do
  if a.id = 0 then throw "Author missing required field: id"
  if a.name = "" then throw "Author missing required field: name"
  if a.slug = "" then throw "Author missing required field: slug"
  if a.email = "" then throw "Author missing required field: email"
  if a.status = "" then throw "Author missing required field: status"
  if !emailPatternMatches a.email then
    throw ("Author " ++ toString a.id ++ " has invalid email: " ++ a.email)
  if !slugPatternMatches a.slug then
    throw ("Author " ++ toString a.id ++ " has invalid slug: " ++ a.slug)

/-- `validateExport` from the second draft (lines 421–463): the presence
checks on `meta`/`data` and the seven arrays always pass here (a typed
record always has them, and in JS an array — even empty — is truthy);
then each post, tag and author is validated in order, and the first
failing field aborts the whole validation with its message. -/
def validateExport (e : GhostExport) : Except String Unit := do
  e.data.posts.forM validatePost
  e.data.tags.forM validateTag
  e.data.users.forM validateAuthor

/-- The export-document assembly of `exportToFile` (lines 256–281):
dedup tags and authors, build the join rows and default roles, wrap with
the meta block (`Date.now()` is passed in as `now`, `version` is the
instance field `'5.0.0'`). -/
def assembleExport (cfg : Option AuthorConfig) (now : Nat)
    (posts : List GhostPost) : GhostExport :=
  let tags := extractUniqueTags posts
  let authors := extractUniqueAuthors cfg posts
  { meta := { exported_on := now, version := "5.0.0" }
    data := { posts := posts
              tags := tags
              users := authors
              posts_tags := createPostsTags posts tags
              posts_authors := createPostsAuthors posts
              roles := createDefaultRoles now
              roles_users := createRolesUsers authors } }

/-- `exportToFile` from the second draft of `src/export/jsonWriter.ts`
(lines 254–299): assemble the document, validate it, and only then write
it to the output path.  The embedding returns the document written on
success; a validation throw is caught by the surrounding `try`/`catch`
and re-thrown as `Failed to export to file: Error: <message>`, and in
that case no file is written — modeled by returning no document. -/
def exportToFile (cfg : Option AuthorConfig) (now : Nat)
    (posts : List GhostPost) : Except String GhostExport :=
  let exportData := assembleExport cfg now posts
  match validateExport exportData with
  | .ok _ => .ok exportData
  | .error e => .error ("Failed to export to file: Error: " ++ e)

end GhostExporter

namespace JsonWriterV1

/-- `extractUniqueTags` from the **first** draft of
`src/export/jsonWriter.ts` (lines 82–94): walk the posts in order and
each post's `tags` in order, inserting a tag into the map keyed by its
slug only when the slug is not yet present — deduplication by slug with
first-seen-wins, preserving insertion order (a JS `Map` iterates in
insertion order). -/
def extractUniqueTags (posts : List GhostExporter.GhostPost) :
    List GhostExporter.GhostTag :=
  posts.foldl (fun acc p =>
    p.tags.foldl (fun acc2 tag =>
      if acc2.any (fun t => t.slug = tag.slug) then acc2
      else acc2 ++ [tag]) acc) []

end JsonWriterV1

/-- The eight post types recognized by the first draft's `convertToHtml`
dispatch (`src/transform/formatPost.ts`, lines 144–161). -/
def recognizedTypes : List String :=
  ["text", "photo", "quote", "link", "chat", "audio", "video", "answer"]

/-- A `TumblrPost` with every optional field absent (the `""`/`[]`
encodings of `undefined`): the base point for the concrete test posts. -/
def basePost : TumblrPost :=
  { id := "1", type := "text", timestamp := 0, tags := [], slug := "", title := "",
    body := "", photos := [], video_url := "", audio_url := "", link_url := "",
    quote_text := "", quote_source := "", answer := "", question := "", chat := [] }

/-- First title-fallback test input of the spec: empty title, body
`<p>Hello world. More text.</p>`, empty slug. -/
def titlePost1 : TumblrPost := { basePost with body := "<p>Hello world. More text.</p>" }

/-- Second title-fallback test input: empty title and body, slug
`my-cool-post`. -/
def titlePost2 : TumblrPost := { basePost with slug := "my-cool-post" }

/-- Third title-fallback test input: title, body and slug all empty,
timestamp 1700000000. -/
def titlePost3 : TumblrPost := { basePost with timestamp := 1700000000 }

/-- A post whose explicit title contains an underscore and which has no
platform slug, so the slug is generated by `slugify`. -/
def underscoreTitlePost : TumblrPost := { basePost with title := "a_b" }

/-- A post with an explicit title and platform slug and an empty body
(used for the determinism counterexample; its transformation is fully
computable). -/
def samplePost : TumblrPost := { basePost with title := "Hello", slug := "hi" }

/-- A post with an empty body and a single photo whose `original_size`
URL is a `data:` URI. -/
def dataPhotoPost : TumblrPost :=
  { basePost with photos :=
      [{ caption := "", original_size := { url := "data:abc", width := 1, height := 1 },
         alt_sizes := [] }] }

/-- A gallery body of four consecutive single-image rows A, B, C, D. -/
def galleryBody4 : String :=
  "<div class=\"npf_row\"><img src=\"A\"></div>"
    ++ "<div class=\"npf_row\"><img src=\"B\"></div>"
    ++ "<div class=\"npf_row\"><img src=\"C\"></div>"
    ++ "<div class=\"npf_row\"><img src=\"D\"></div>"

/-- A gallery body of a two-image row A, B followed by a single-image
row C. -/
def galleryBody21 : String :=
  "<div class=\"npf_row\"><img src=\"A\"><img src=\"B\"></div>"
    ++ "<div class=\"npf_row\"><img src=\"C\"></div>"

/-- A valid exportable post record: every required field present, slug
matching the pattern. -/
def validExportPost : GhostExporter.GhostPost :=
  { id := "1", author_id := 1, title := "T", slug := "ok", mobiledoc := some "x",
    status := "published", published_at := "t", created_at := "t", updated_at := "t",
    tags := [] }

/-- Two invalid posts for the validation-report claim: the first is
missing its title, the second has an invalid slug — two distinct violated
fields on two distinct posts. -/
def twoViolationPosts : List GhostExporter.GhostPost :=
  [{ validExportPost with title := "" },
   { validExportPost with id := "2", slug := "Bad_Slug" }]

/-- A tag with slug `alpha` (first tag of the first post in the tag-dedup
counterexample). -/
def tagAlpha : GhostExporter.GhostTag :=
  { id := 7, name := "Alpha", slug := "alpha", description := "" }

/-- A tag with slug `shared`, carried by both posts of the tag-dedup
counterexample. -/
def tagShared : GhostExporter.GhostTag :=
  { id := 9, name := "Shared", slug := "shared", description := "" }

/-- Two posts that both carry the tag with slug `shared`; the first also
carries `alpha` before it. -/
def sharedTagPosts : List GhostExporter.GhostPost :=
  [{ validExportPost with tags := [tagAlpha, tagShared] },
   { validExportPost with id := "2", tags := [tagShared] }]

/-- Two posts each carrying exactly the `shared` tag (the scenario in
which the amended tag-dedup claim holds). -/
def sharedOnlyPost1 : GhostExporter.GhostPost := { validExportPost with tags := [tagShared] }

/-- Second post of the single-shared-tag scenario. -/
def sharedOnlyPost2 : GhostExporter.GhostPost :=
  { validExportPost with id := "2", tags := [tagShared] }

/-- The entity scanner leaves any fuel's worth of an ampersand-free
character list unchanged: every rewrite the scanner performs begins at an
`&`. -/
theorem decodeEntitiesGo_no_amp (fuel : Nat) :
    ∀ (l : List Char), '&' ∉ l → decodeEntitiesGo fuel l = l := by
  induction fuel with
  | zero => intro l _; cases l <;> rfl
  | succ n ih =>
    intro l h
    cases l with
    | nil => rfl
    | cons c cs =>
      have hc : ¬(c = '&') := fun e => h (by subst e; exact List.mem_cons_self _ _)
      simp only [decodeEntitiesGo, if_neg hc]
      rw [ih cs (fun m => h (List.mem_cons_of_mem _ m))]

/-- `decodeHtmlEntities` is the identity on strings without an
ampersand. -/
theorem decodeHtmlEntities_of_no_amp (s : String) (h : '&' ∉ s.toList) :
    decodeHtmlEntities s = s := by
  unfold decodeHtmlEntities
  rw [decodeEntitiesGo_no_amp _ _ h]
  cases s
  rfl

/-- A body-derived title candidate accepted by `titleFromBody` is
non-empty (both accepting branches test the candidate for truthiness). -/
theorem titleFromBody_ne_empty (p : TumblrPost) (t : String)
    (h : titleFromBody p = some t) : t ≠ "" := by
  unfold titleFromBody at h
  simp only [ne_eq] at h
  split at h
  · split at h
    · rename_i hcond
      cases h
      exact hcond.1
    · split at h
      · rename_i hcond
        cases h
        exact hcond.1
      · exact absurd h (by simp)
  · exact absurd h (by simp)

/-- A slug-derived title candidate accepted by `titleFromSlug` is
non-empty (its length must exceed 5). -/
theorem titleFromSlug_ne_empty (p : TumblrPost) (t : String)
    (h : titleFromSlug p = some t) : t ≠ "" := by
  unfold titleFromSlug at h
  simp only [ne_eq] at h
  split at h
  · split at h
    · rename_i hcond
      cases h
      intro e
      rw [e] at hcond
      exact absurd hcond (by decide)
    · exact absurd h (by simp)
  · exact absurd h (by simp)

/-- The date-based fallback title is never empty (it starts with
`Post from `). -/
theorem dateFallbackTitle_ne_empty (p : TumblrPost) : dateFallbackTitle p ≠ "" := by
  unfold dateFallbackTitle
  intro e
  have h := congrArg String.length e
  rw [String.length_append] at h
  have h10 : ("Post from " : String).length = 10 := rfl
  have h0 : ("" : String).length = 0 := rfl
  omega

/-- Every branch of the title fallback chain produces a non-empty
title. -/
theorem extractTitle_ne_empty (p : TumblrPost) : extractTitle p ≠ "" := by
  unfold extractTitle
  split
  · assumption
  · cases hb : titleFromBody p with
    | some t => exact titleFromBody_ne_empty p t hb
    | none =>
      cases hs : titleFromSlug p with
      | some t => exact titleFromSlug_ne_empty p t hs
      | none => exact dateFallbackTitle_ne_empty p

/-- Lowercasing never produces an ASCII uppercase letter. -/
theorem lowerAsciiChar_not_upper (c : Char) : isAsciiUpper (lowerAsciiChar c) = false := by
  unfold lowerAsciiChar
  by_cases h : isAsciiUpper c = true
  · rw [if_pos h]
    unfold isAsciiUpper at h ⊢
    rw [Bool.and_eq_true, decide_eq_true_eq, decide_eq_true_eq] at h
    have h1 : 65 ≤ c.toNat := h.1
    have h2 : c.toNat ≤ 90 := h.2
    generalize hn : c.toNat = n at h1 h2
    interval_cases n <;> decide
  · rw [if_neg h]
    exact Bool.not_eq_true _ ▸ (by simpa using h)

/-- Every character emitted by the whitespace-run collapse is either the
replacement character or a non-whitespace input character. -/
theorem mem_collapseSpaceRuns {r c : Char} :
    ∀ (b : Bool) (l : List Char), c ∈ collapseSpaceRuns r b l →
      c = r ∨ (c ∈ l ∧ isJsSpace c = false) := by
  intro b l
  induction l generalizing b with
  | nil => intro h; simp [collapseSpaceRuns] at h
  | cons a as ih =>
    intro h
    simp only [collapseSpaceRuns] at h
    by_cases ha : isJsSpace a = true
    · rw [if_pos ha] at h
      by_cases hb : b = true
      · rw [if_pos hb] at h
        rcases ih _ h with h1 | ⟨h2, h3⟩
        · exact Or.inl h1
        · exact Or.inr ⟨List.mem_cons_of_mem _ h2, h3⟩
      · rw [if_neg hb] at h
        rcases List.mem_cons.mp h with h1 | h1
        · exact Or.inl h1
        · rcases ih _ h1 with h2 | ⟨h2, h3⟩
          · exact Or.inl h2
          · exact Or.inr ⟨List.mem_cons_of_mem _ h2, h3⟩
    · rw [if_neg ha] at h
      rcases List.mem_cons.mp h with h1 | h1
      · subst h1
        exact Or.inr ⟨List.mem_cons_self _ _, by simpa using ha⟩
      · rcases ih _ h1 with h2 | ⟨h2, h3⟩
        · exact Or.inl h2
        · exact Or.inr ⟨List.mem_cons_of_mem _ h2, h3⟩

/-- The hyphen-run collapse only emits characters of its input. -/
theorem mem_collapseHyphenRuns {c : Char} :
    ∀ (b : Bool) (l : List Char), c ∈ collapseHyphenRuns b l → c ∈ l := by
  intro b l
  induction l generalizing b with
  | nil => intro h; simp [collapseHyphenRuns] at h
  | cons a as ih =>
    intro h
    simp only [collapseHyphenRuns] at h
    by_cases ha : a = '-'
    · rw [if_pos ha] at h
      by_cases hb : b = true
      · rw [if_pos hb] at h
        exact List.mem_cons_of_mem _ (ih _ h)
      · rw [if_neg hb] at h
        rcases List.mem_cons.mp h with h1 | h1
        · subst h1; rw [ha]; exact List.mem_cons_self _ _
        · exact List.mem_cons_of_mem _ (ih _ h1)
    · rw [if_neg ha] at h
      rcases List.mem_cons.mp h with h1 | h1
      · subst h1; exact List.mem_cons_self _ _
      · exact List.mem_cons_of_mem _ (ih _ h1)

/-- Trimming only removes characters. -/
theorem mem_jsTrimList {c : Char} {l : List Char} (h : c ∈ jsTrimList l) : c ∈ l := by
  unfold jsTrimList at h
  rw [List.mem_reverse] at h
  have h1 := (List.dropWhile_sublist (l := (l.dropWhile isJsSpace).reverse) isJsSpace).subset h
  rw [List.mem_reverse] at h1
  exact (List.dropWhile_sublist isJsSpace).subset h1

/-- Every character of a slugified string is a lowercase ASCII letter, a
digit, an underscore or a hyphen: lowercasing kills the uppercase range,
the character filter keeps only word characters, whitespace and hyphens,
and the whitespace runs then become hyphens.  (Underscores survive — the
JS `\w` class contains `_` and the whitespace collapse does not touch
it.) -/
theorem slugify_chars (t : String) (c : Char) (hc : c ∈ (slugify t).toList) :
    (isAsciiLower c || isAsciiDigit c || c = '_' || c = '-') = true := by
  unfold slugify jsTrim at hc
  have hc2 := mem_jsTrimList hc
  have hc3 := mem_collapseHyphenRuns _ _ hc2
  rcases mem_collapseSpaceRuns _ _ hc3 with h | ⟨h4, h5⟩
  · subst h; simp
  · rw [List.mem_filter] at h4
    obtain ⟨hmem, hkeep⟩ := h4
    rw [List.mem_map] at hmem
    obtain ⟨a, _, ha⟩ := hmem
    have hup : isAsciiUpper c = false := ha ▸ lowerAsciiChar_not_upper a
    simp only [Bool.or_eq_true, decide_eq_true_eq] at hkeep ⊢
    rcases hkeep with (hw | hs) | hd
    · unfold isWordChar at hw
      simp only [Bool.or_eq_true, decide_eq_true_eq] at hw
      rcases hw with ((h | h) | h) | h
      · exact Or.inl (Or.inl (Or.inl h))
      · rw [hup] at h; exact absurd h (by simp)
      · exact Or.inl (Or.inl (Or.inr h))
      · exact Or.inl (Or.inr h)
    · rw [h5] at hs; exact absurd hs (by simp)
    · exact Or.inr hd

/-- Every URL collected by the filtering image scanner (the
`extractImagesFromHtml` configuration) fails the `data:` prefix test —
the scanner drops `data:` captures before recording them. -/
theorem scanImgsGo_no_data (pre : List Char) (minGap : Nat) (fuel : Nat) :
    ∀ (l : List Char) (u : String), u ∈ scanImgsGo pre minGap true fuel l →
      startsWithRaw ['d', 'a', 't', 'a', ':'] u.toList = false := by
  induction fuel with
  | zero => intro l u h; simp [scanImgsGo] at h
  | succ n ih =>
    intro l u h
    cases l with
    | nil => simp [scanImgsGo] at h
    | cons c cs =>
      simp only [scanImgsGo] at h
      cases hm : imgMatchAt pre minGap (c :: cs) with
      | some pr =>
        obtain ⟨cap, rest⟩ := pr
        rw [hm] at h
        dsimp only at h
        by_cases hd : startsWithRaw ['d', 'a', 't', 'a', ':'] cap = true
        · rw [if_pos (by simp [hd])] at h
          exact ih _ _ h
        · rw [if_neg (by simp [hd])] at h
          rcases List.mem_cons.mp h with h1 | h1
          · subst h1
            simpa using hd
          · exact ih _ _ h1
      | none =>
        rw [hm] at h
        exact ih _ _ h

set_option maxRecDepth 40000 in
/-- C1 counterexample: for a body whose gallery consists of four
consecutive single-image rows `[A]`, `[B]`, `[C]`, `[D]`, the
reconstructed gallery is **not** `[A,B,C]` followed by `[D]` as the claim
states: the repacking loop flushes a row as soon as the buffer reaches 2,
so the actual output rows are `[A,B]` and `[C,D]`. -/
theorem gallery_repack_counterexample :
    ghostRowsOf galleryBody4 = [["A", "B"], ["C", "D"]] ∧
    ¬(ghostRowsOf galleryBody4 = [["A", "B", "C"], ["D"]]) := by
  decide

set_option maxRecDepth 40000 in
/-- C1 (amended): for a body of four consecutive single-image gallery
rows `[A]`, `[B]`, `[C]`, `[D]`, the reconstructed gallery has exactly two
output rows `[A,B]` and `[C,D]` (the buffer is flushed as soon as it
reaches 2 images); and for a body of rows `[A,B]` then `[C]`, the
reconstructed gallery is the single row `[A,B,C]` (the leftover single
image is merged into the previous row of 2), and the emitted HTML is the
single three-image Ghost gallery row. -/
theorem gallery_repack_rows :
    ghostRowsOf galleryBody4 = [["A", "B"], ["C", "D"]] ∧
    ghostRowsOf galleryBody21 = [["A", "B", "C"]] ∧
    convertTumblrGalleryToGhostGallery galleryBody21 =
      "<figure class=\"kg-card kg-gallery-card kg-width-wide\"><div class=\"kg-gallery-container\">"
        ++ "<div class=\"kg-gallery-row\">"
        ++ "<div class=\"kg-gallery-image\"><img src=\"A\" loading=\"lazy\" alt=\"\" /></div>"
        ++ "<div class=\"kg-gallery-image\"><img src=\"B\" loading=\"lazy\" alt=\"\" /></div>"
        ++ "<div class=\"kg-gallery-image\"><img src=\"C\" loading=\"lazy\" alt=\"\" /></div>"
        ++ "</div></div></figure>" := by
  decide

set_option maxRecDepth 40000 in
/-- C2 counterexample: for the post with empty title, body
`<p>Hello world. More text.</p>` and empty slug, the derived title is
`Hello world. More text.`, not `Hello world.` as the claim states: the
first sentence `Hello world.` is rejected because it has only 2
space-separated words (the acceptance test requires more than 3), so the
chain falls through to the first-words candidate, which returns the whole
text. -/
theorem title_fallback_counterexample :
    extractTitle titlePost1 = "Hello world. More text." ∧
    ¬(extractTitle titlePost1 = "Hello world.") := by
  decide

set_option maxRecDepth 40000 in
/-- C2 (amended): on the spec's three test inputs the title fallback
chain yields `Hello world. More text.` (the whole body text, because the
first sentence fails the more-than-3-words test), `My Cool Post` (the
humanized slug) and `Post from 2023-11-14` (the date fallback for
timestamp 1700000000). -/
theorem title_fallback_chain :
    extractTitle titlePost1 = "Hello world. More text." ∧
    extractTitle titlePost2 = "My Cool Post" ∧
    extractTitle titlePost3 = "Post from 2023-11-14" := by
  decide

set_option maxRecDepth 40000 in
/-- C3 counterexample: the post with explicit title `a_b` and no platform
slug is transformed to slug `a_b`, which does not match `^[a-z0-9-]+$`:
`slugify` keeps underscores (the JS word-character class includes `_`). -/
theorem slug_pattern_counterexample :
    (transform underscoreTitlePost "u").slug = "a_b" ∧
    GhostExporter.slugPatternMatches (transform underscoreTitlePost "u").slug = false := by
  decide

/-- C3 (amended): when the source post has no platform slug (so the slug
is generated from the derived title), every character of the transformed
post's slug is a lowercase ASCII letter, a digit, an underscore or a
hyphen.  Underscores are not removed, leading/trailing hyphens are not
trimmed (the final `trim` only strips whitespace), and a platform slug
would be passed through verbatim without any check — so the full
`^[a-z0-9-]+$` claim fails. -/
theorem generated_slug_charset (p : TumblrPost) (u : String) (h : p.slug = "") :
    ((transform p u).slug).toList.all
      (fun c => isAsciiLower c || isAsciiDigit c || c = '_' || c = '-') = true := by
  have hslug : (transform p u).slug = slugify (extractTitle p) := by
    show generateSlug p = _
    unfold generateSlug
    rw [if_neg (by simp [h])]
  rw [hslug, List.all_eq_true]
  intro c hc
  exact slugify_chars (extractTitle p) c hc

set_option maxRecDepth 40000 in
/-- C3 witness: the amended slug-character theorem applied to the
concrete post with title `a_b` and empty platform slug. -/
theorem generated_slug_charset_witness :
    underscoreTitlePost.slug = "" ∧
    ((transform underscoreTitlePost "u").slug).toList.all
      (fun c => isAsciiLower c || isAsciiDigit c || c = '_' || c = '-') = true :=
  ⟨rfl, generated_slug_charset underscoreTitlePost "u" rfl⟩

/-- C4 counterexample: with two invalid posts — the first missing its
title, the second carrying the invalid slug `Bad_Slug` — validation
reports only the first violated field (`title`); the report does not even
contain the word `slug`, so it does not enumerate every violated field
across all posts as the claim states. -/
theorem validation_first_violation_counterexample :
    GhostExporter.validateExport (GhostExporter.assembleExport none 0 twoViolationPosts) =
      Except.error "Post missing required field: title" ∧
    containsCI "slug".toList "Post missing required field: title".toList = false :=
  ⟨rfl, by decide⟩

/-- C4 (amended): when export validation fails, no output file is written
— `exportToFile` produces no document and only the wrapped error — but
the failure report names only the **first** violation encountered (each
validator throws at the first bad field), not every violated field. -/
theorem export_validation_abort (cfg : Option GhostExporter.AuthorConfig) (now : Nat)
    (posts : List GhostExporter.GhostPost) (m : String)
    (h : GhostExporter.validateExport (GhostExporter.assembleExport cfg now posts) =
      Except.error m) :
    GhostExporter.exportToFile cfg now posts =
      Except.error ("Failed to export to file: Error: " ++ m) := by
  simp only [GhostExporter.exportToFile, h]

/-- C4 witness: the abort theorem applied to the concrete two-violation
post list. -/
theorem export_validation_abort_witness :
    GhostExporter.validateExport (GhostExporter.assembleExport none 0 twoViolationPosts) =
      Except.error "Post missing required field: title" ∧
    GhostExporter.exportToFile none 0 twoViolationPosts =
      Except.error ("Failed to export to file: Error: " ++ "Post missing required field: title") :=
  ⟨rfl, export_validation_abort none 0 twoViolationPosts _ rfl⟩

set_option maxRecDepth 40000 in
/-- C5 counterexample: two applications of `transform` to the same source
post do not produce identical records — `uuid` is freshly generated by
the random `uuidv4()` on every call (here modeled by the two distinct
values that generator returns for the two calls), so the records differ
in their `uuid` field. -/
theorem transform_uuid_counterexample :
    ¬(transform samplePost "u1" = transform samplePost "u2") := by
  decide

/-- C5 (amended): `transform` is deterministic in every synthesized field
**except** `uuid`: for a fixed input post, two applications agree on all
other fields (identifiers, title, slug, html, feature image and
timestamps are pure functions of the post), so erasing `uuid` makes the
two results identical. -/
theorem transform_deterministic_modulo_uuid (p : TumblrPost) (u₁ u₂ : String) :
    { transform p u₁ with uuid := "" } = { transform p u₂ with uuid := "" } := rfl

set_option maxRecDepth 40000 in
/-- C6 counterexample: entity decoding is not idempotent — the
double-encoded input `&amp;amp;` decodes to `&amp;`, which decodes again
to `&`, so a second decode changes the result of the first. -/
theorem decode_idempotence_counterexample :
    ¬(decodeHtmlEntities (decodeHtmlEntities "&amp;amp;") =
      decodeHtmlEntities "&amp;amp;") := by
  decide

/-- C6 (amended): entity decoding is idempotent on every string whose
single decode contains no ampersand (equivalently, no residual entity):
decoding such an already-decoded string is a no-op.  In general
idempotence fails, because decoding a double-encoded entity yields a
fresh entity (see the counterexample). -/
theorem decode_idempotent_when_clean (s : String)
    (h : '&' ∉ (decodeHtmlEntities s).toList) :
    decodeHtmlEntities (decodeHtmlEntities s) = decodeHtmlEntities s :=
  decodeHtmlEntities_of_no_amp _ h

/-- C6 witness: the conditional idempotence theorem applied to
`&lt;x&gt;`, whose decode `<x>` is ampersand-free. -/
theorem decode_idempotent_when_clean_witness :
    '&' ∉ (decodeHtmlEntities "&lt;x&gt;").toList ∧
    decodeHtmlEntities (decodeHtmlEntities "&lt;x&gt;") = decodeHtmlEntities "&lt;x&gt;" :=
  ⟨by decide, decode_idempotent_when_clean "&lt;x&gt;" (by decide)⟩

/-- C7: for every post whose `type` is not one of the eight recognized
types, the first draft's content synthesis returns (without throwing —
the embedding is a total function) the single placeholder paragraph
`<p>Unsupported post type: TYPE</p>`, which contains the unrecognized
type name as a literal substring. -/
theorem unsupported_type_placeholder (p : TumblrPost) (h : p.type ∉ recognizedTypes) :
    V1.convertToHtml p = "<p>Unsupported post type: " ++ p.type ++ "</p>" ∧
    ∃ pre suf : String, V1.convertToHtml p = pre ++ p.type ++ suf := by
  have h1 : ¬(p.type = "text") := fun e => h (by rw [e]; decide)
  have h2 : ¬(p.type = "photo") := fun e => h (by rw [e]; decide)
  have h3 : ¬(p.type = "quote") := fun e => h (by rw [e]; decide)
  have h4 : ¬(p.type = "link") := fun e => h (by rw [e]; decide)
  have h5 : ¬(p.type = "chat") := fun e => h (by rw [e]; decide)
  have h6 : ¬(p.type = "audio") := fun e => h (by rw [e]; decide)
  have h7 : ¬(p.type = "video") := fun e => h (by rw [e]; decide)
  have h8 : ¬(p.type = "answer") := fun e => h (by rw [e]; decide)
  have hconv : V1.convertToHtml p = "<p>Unsupported post type: " ++ p.type ++ "</p>" := by
    unfold V1.convertToHtml
    rw [if_neg h1, if_neg h2, if_neg h3, if_neg h4, if_neg h5, if_neg h6, if_neg h7,
      if_neg h8]
  exact ⟨hconv, "<p>Unsupported post type: ", "</p>", hconv⟩

/-- C7 witness: the placeholder theorem applied to a post of the
unrecognized type `poll`. -/
theorem unsupported_type_placeholder_witness :
    ("poll" ∉ recognizedTypes) ∧
    V1.convertToHtml { basePost with type := "poll" } = "<p>Unsupported post type: poll</p>" := by
  refine ⟨by decide, ?_⟩
  have h := unsupported_type_placeholder { basePost with type := "poll" } (by decide)
  rw [h.1]
  rfl

/-- C8: for every source post — any type, any combination of absent
optional fields — the transformed post's title is non-empty: each step of
the fallback chain only accepts a candidate after a non-emptiness or
length test, and the final date fallback is a non-empty literal. -/
theorem transform_title_nonempty (p : TumblrPost) (u : String) :
    (transform p u).title ≠ "" :=
  extractTitle_ne_empty p

/-- C9 counterexample: with two posts both carrying the tag slug `shared`
(the first also carrying `alpha` before it), deduplication produces
exactly one `shared` tag entity, but the join-row builder links every
post to the **first** tag of the collection (`alpha`), so the number of
`PostTag` rows referencing the shared tag is 0, not 2 as the claim
states. -/
theorem tag_join_rows_counterexample :
    ((JsonWriterV1.extractUniqueTags sharedTagPosts).filter
      (fun t => t.slug = "shared")).length = 1 ∧
    ¬(((GhostExporter.createPostsTags sharedTagPosts
          (JsonWriterV1.extractUniqueTags sharedTagPosts)).filter
        (fun r => r.tag_id = tagShared.id)).length = 2) := by
  decide

/-- C9 (amended): tag deduplication by slug does yield exactly one tag
entity for a shared slug, and when the shared tag is the **first** (e.g.
the only) tag of both posts, the export contains exactly two `PostTag`
rows — one per post — referencing it; in general, however,
`createPostsTags` links every post to the first deduplicated tag only,
ignoring actual tag membership. -/
theorem tag_dedup_single_shared_tag (p1 p2 : GhostExporter.GhostPost)
    (t : GhostExporter.GhostTag) (h1 : p1.tags = [t]) (h2 : p2.tags = [t]) :
    JsonWriterV1.extractUniqueTags [p1, p2] = [t] ∧
    GhostExporter.createPostsTags [p1, p2] (JsonWriterV1.extractUniqueTags [p1, p2]) =
      [{ post_id := p1.id, tag_id := t.id }, { post_id := p2.id, tag_id := t.id }] := by
  have he : JsonWriterV1.extractUniqueTags [p1, p2] = [t] := by
    simp [JsonWriterV1.extractUniqueTags, h1, h2]
  refine ⟨he, ?_⟩
  rw [he]
  simp [GhostExporter.createPostsTags]

/-- C9 witness: the amended tag-dedup theorem applied to two concrete
posts that each carry exactly the `shared` tag. -/
theorem tag_dedup_single_shared_tag_witness :
    sharedOnlyPost1.tags = [tagShared] ∧ sharedOnlyPost2.tags = [tagShared] ∧
    JsonWriterV1.extractUniqueTags [sharedOnlyPost1, sharedOnlyPost2] = [tagShared] ∧
    GhostExporter.createPostsTags [sharedOnlyPost1, sharedOnlyPost2]
        (JsonWriterV1.extractUniqueTags [sharedOnlyPost1, sharedOnlyPost2]) =
      [{ post_id := sharedOnlyPost1.id, tag_id := tagShared.id },
       { post_id := sharedOnlyPost2.id, tag_id := tagShared.id }] := by
  have h := tag_dedup_single_shared_tag sharedOnlyPost1 sharedOnlyPost2 tagShared rfl rfl
  exact ⟨rfl, rfl, h.1, h.2⟩

set_option maxRecDepth 40000 in
/-- C10 counterexample: for the post with empty body and a `photos` array
whose first entry's `original_size` URL is the `data:` URI `data:abc`,
the transformed post's feature image **is** that `data:` URI — the
`data:` filter applies only to body-extracted images, not to the photos
fallback, so "data: URIs are never chosen" is false. -/
theorem feature_image_data_counterexample :
    (transform dataPhotoPost "u").feature_image = some "data:abc" ∧
    startsWithRaw ['d', 'a', 't', 'a', ':'] ("data:abc").toList = true := by
  decide

/-- C10 (amended): the transformed post's feature image is the first
body-extracted image URL when there is one — and every body-extracted
URL passes the non-`data:` filter — otherwise the `original_size` URL of
the first `photos` entry when that array is non-empty (even if it is a
`data:` URI), otherwise `null`. -/
theorem feature_image_selection (p : TumblrPost) (u : String) :
    (transform p u).feature_image =
      Option.or ((extractImagesFromHtml p.body).head?)
        (p.photos.head?.map (fun ph => ph.original_size.url)) ∧
    (extractImagesFromHtml p.body).all
      (fun s => !startsWithRaw ['d', 'a', 't', 'a', ':'] s.toList) = true := by
  constructor
  · show extractFeatureImage p = _
    unfold extractFeatureImage
    by_cases hb : p.body = ""
    · rw [if_neg (by simp [hb]), hb]
      have h0 : extractImagesFromHtml "" = [] := rfl
      rw [h0]
      cases hp : p.photos.head? with
      | none => simp
      | some ph => simp
    · rw [if_pos (by simp [hb])]
      cases hh : (extractImagesFromHtml p.body).head? with
      | some u0 => simp
      | none =>
        simp only []
        cases hp : p.photos.head? with
        | none => simp
        | some ph => simp
  · rw [List.all_eq_true]
    intro s hs
    have := scanImgsGo_no_data ['<', 'i', 'm', 'g'] 1 p.body.toList.length p.body.toList s hs
    simpa using this
